import Mathlib

/-!
Shallow embedding of the redis-stream consumer in `pubsub/consumer.go`
(package `pubsub`): the consumer configuration, `NewConsumer`, the
heartbeat loop body started by `Start`, `Consume`, and `SetResult`.

The redis client is external to the package, so every store round trip is
modelled by explicit parameters describing the store's reply (injected
errors, the stream payload returned by XREADGROUP, the current key space
for the create-only SETNX write), and every operation additionally returns
the ordered list of redis commands it issued, so that ordering and
"no acknowledgment happened" properties can be stated about the code.
-/

namespace Pubsub

/-- Model of a non-nil Go `error` value. `wrap msg inner` models
`fmt.Errorf` with a trailing `%w` verb applied to a non-nil error
`inner`; `wrapNil msg` models the same with a nil argument to `%w`
(which Go permits: the built error is non-nil but unwraps to nothing);
`base msg` models an error built without wrapping. A Go `error`
variable that may be nil is `Option GoErr`, with `none` for nil. -/
inductive GoErr where
  | base (msg : String)
  | wrapNil (msg : String)
  | wrap (msg : String) (inner : GoErr)
deriving DecidableEq, Repr

/-- Builds the error of `fmt.Errorf(fmt ++ ": %w", e)` where the Go
variable `e` may be nil. -/
def GoErr.wrapO (msg : String) (inner : Option GoErr) : GoErr :=
  match inner with
  | none => GoErr.wrapNil msg
  | some e => GoErr.wrap msg e

/-- Model of `ConsumerConfig` (consumer.go lines 17-29). Durations are
Go `time.Duration`, i.e. int64 nanoseconds, modelled as `Int`. -/
structure ConsumerConfig where
  ResponseEntryTimeout : Int
  KeepAliveTimeout : Int
  RedisURL : String
  RedisStream : String
  RedisGroup : String
deriving DecidableEq, Repr

/-- Division of Go `time.Duration` values: int64 division truncates
toward zero, which is `Int.tdiv`. -/
def durDiv (d n : Int) : Int := Int.tdiv d n

/-- A redis command issued by the consumer, recorded in issue order.
`xreadgroup` carries the group, consumer name, stream, the new-messages
marker (the literal `">"` id), the count and the block duration;
`setnx` is the create-only result write; `xack` the acknowledgment;
`setKey` the plain SET used by the heartbeat. -/
inductive RedisCmd where
  | xreadgroup (group consumer stream : String) (onlyNew : Bool) (count : Int) (block : Int)
  | setnx (key value : String) (expiry : Int)
  | xack (stream group id : String)
  | setKey (key : String) (value : Int) (expiry : Int)
deriving DecidableEq, Repr

/-- A dynamic value stored under a field of a redis stream entry
(Go `interface` value in `XMessage.Values`): either a string, or
anything else (for which the `.(string)` type assertion fails). -/
inductive RValue where
  | str (s : String)
  | other
deriving DecidableEq, Repr

/-- Model of `redis.XMessage`: the entry id and its field map. -/
structure XMessage where
  ID : String
  Values : List (String × RValue)
deriving DecidableEq, Repr

/-- Model of `redis.XStream`: a stream name and its returned entries. -/
structure XStream where
  Stream : String
  Messages : List XMessage
deriving DecidableEq, Repr

/-- Outcome of the `XReadGroup(...).Result()` call in `Consume`:
the store replied with the sentinel `redis.Nil` (no data), with some
other error, or successfully with a list of streams. -/
inductive ReadOutcome where
  | redisNil
  | err (e : GoErr)
  | ok (streams : List XStream)
deriving DecidableEq, Repr

/-- Model of `Message[T]` (consumer.go lines 62-65). -/
structure Message (T : Type) where
  ID : String
  Value : T
deriving DecidableEq, Repr

/-- Result of a call to `Consume`: the returned `(*Message[T], error)`
pair (a nil pointer is `none`, a nil error is `none`), plus the trace of
redis commands the call issued. -/
structure ConsumeOut (T : Type) where
  msg : Option (Message T)
  err : Option GoErr
  trace : List RedisCmd
deriving DecidableEq, Repr

/-- Model of `Consume` (consumer.go lines 119-156). `um` is the
`Unmarshal` method of the `Marshallable` type parameter, returning a Go
`(T, error)` pair; `messageKey` is the package-level field-name constant
(defined in another file of the package, so it is a parameter here);
`ro` is the store's reply to the single XREADGROUP call. The block
duration is `time.Millisecond` = 1000000 ns, count is 1, and the stream
id list is `[stream, ">"]`, i.e. only never-delivered messages. -/
def Consume (T : Type) (um : String → T × Option GoErr) (cfg : ConsumerConfig)
    (id messageKey : String) (ro : ReadOutcome) : ConsumeOut T :=
  let readCmd := RedisCmd.xreadgroup cfg.RedisGroup id cfg.RedisStream true 1 1000000
  match ro with
  | ReadOutcome.redisNil => ⟨none, none, [readCmd]⟩
  | ReadOutcome.err e =>
      ⟨none, some (GoErr.wrap ("reading message for consumer: " ++ id) e), [readCmd]⟩
  | ReadOutcome.ok res =>
    match res with
    | [stream] =>
      match stream.Messages with
      | [m] =>
        match m.Values.lookup messageKey with
        | some (RValue.str data) =>
          match um data with
          | (v, none) => ⟨some ⟨m.ID, v⟩, none, [readCmd]⟩
          | (_, some e) =>
              ⟨none, some (GoErr.wrap "unmarshaling value" e), [readCmd]⟩
        | some RValue.other =>
            ⟨none, some (GoErr.wrapNil "casting request to string"), [readCmd]⟩
        | none =>
            ⟨none, some (GoErr.wrapNil "casting request to string"), [readCmd]⟩
      | [] =>
          ⟨none, some (GoErr.base "redis returned entries, for querying single message"), [readCmd]⟩
      | _ :: _ :: _ =>
          ⟨none, some (GoErr.base "redis returned entries, for querying single message"), [readCmd]⟩
    | [] =>
        ⟨none, some (GoErr.base "redis returned entries, for querying single message"), [readCmd]⟩
    | _ :: _ :: _ =>
        ⟨none, some (GoErr.base "redis returned entries, for querying single message"), [readCmd]⟩

/-- The well-shapedness test of the XREADGROUP reply that `Consume`
enforces at line 135: exactly one stream holding exactly one entry. -/
def singleShape (res : List XStream) : Bool :=
  match res with
  | [stream] => stream.Messages.length == 1
  | _ => false

/-- The key space of result entries: the store's string keys, as a
first-key-wins association list (`SETNX` never overwrites). -/
abbrev Store := List (String × String)

/-- Outcome of the `SetNX(...).Result()` call. -/
structure SetNXOut where
  store : Store
  acquired : Bool
  err : Option GoErr
deriving DecidableEq, Repr

/-- Model of redis SETNX, the create-only write: when the client reports
an injected error the command did not take effect and `acquired` is the
Go zero value `false`; otherwise the key is created only if absent. -/
def setNX (st : Store) (key value : String) (injected : Option GoErr) : SetNXOut :=
  match injected with
  | some e => ⟨st, false, some e⟩
  | none =>
    match st.lookup key with
    | some _ => ⟨st, false, none⟩
    | none => ⟨(key, value) :: st, true, none⟩

/-- Result of a call to `SetResult`: the key space afterwards, the trace
of redis commands issued in order, and the returned Go error. -/
structure SetResultOut where
  store : Store
  trace : List RedisCmd
  ret : Option GoErr
deriving DecidableEq, Repr

/-- Model of `SetResult` (consumer.go lines 158-167). `setnxErr` and
`xackErr` are the errors the store reports for the SETNX and XACK round
trips (`none` = success). The source returns an error when
`err != nil || !acquired`, wrapping `err` (possibly nil) with `%w`; only
otherwise does it issue XACK, whose failure is wrapped and returned. -/
def SetResult (cfg : ConsumerConfig) (st : Store) (setnxErr xackErr : Option GoErr)
    (messageID result : String) : SetResultOut :=
  let r := setNX st messageID result setnxErr
  let setnxCmd := RedisCmd.setnx messageID result cfg.ResponseEntryTimeout
  if r.err.isSome || !r.acquired then
    ⟨r.store, [setnxCmd],
      some (GoErr.wrapO ("setting result for  message: " ++ messageID) r.err)⟩
  else
    let ackCmd := RedisCmd.xack cfg.RedisStream cfg.RedisGroup messageID
    match xackErr with
    | some e =>
        ⟨r.store, [setnxCmd, ackCmd],
          some (GoErr.wrap ("acking message: " ++ messageID) e)⟩
    | none => ⟨r.store, [setnxCmd, ackCmd], none⟩

/-- Model of the package-level `heartBeatKey` (consumer.go lines 98-100):
`fmt.Sprintf("consumer:%s:heartbeat", id)`. -/
def heartBeatKey (id : String) : String :=
  "consumer:" ++ id ++ ":heartbeat"

/-- Severity of a log call: `log.Info`, `log.Error`, `log.Debug`. -/
inductive LogLevel where
  | info
  | error
  | debug
deriving DecidableEq, Repr

/-- Result of one `heartBeat` call: the single SET command it issues and
the severity of the log line it emits, if any. `heartBeat` has no return
value and every branch falls through, so it is a total function. -/
structure HeartBeatOut where
  cmd : RedisCmd
  logged : Option LogLevel
deriving DecidableEq, Repr

/-- Model of `heartBeat` (consumer.go lines 107-115): SET the heartbeat
key to `time.Now().UnixMilli()` (the parameter `nowMillis`) with expiry
`2*KeepAliveTimeout`; on a write failure log it, at `log.Error` severity
when `ctx.Err() != nil` (the caller requested cancellation, parameter
`ctxErr`) and at `log.Info` otherwise. No error is returned. -/
def heartBeat (cfg : ConsumerConfig) (id : String) (nowMillis : Int)
    (writeErr ctxErr : Option GoErr) : HeartBeatOut :=
  { cmd := RedisCmd.setKey (heartBeatKey id) nowMillis (2 * cfg.KeepAliveTimeout)
    logged :=
      match writeErr with
      | none => none
      | some _ => some (if ctxErr.isSome then LogLevel.error else LogLevel.info) }

/-- Model of the closure passed to `CallIteratively` by `Start`
(consumer.go lines 86-91): run `heartBeat`, then hand
`KeepAliveTimeout / 10` back to the scheduler as the next tick delay,
unconditionally. -/
def startTick (cfg : ConsumerConfig) (id : String) (nowMillis : Int)
    (writeErr ctxErr : Option GoErr) : HeartBeatOut × Int :=
  (heartBeat cfg id nowMillis writeErr ctxErr, durDiv cfg.KeepAliveTimeout 10)

/-- Abstract handle for the redis client returned by
`redisutil.RedisClientFromURL` (external to the package). -/
structure RedisClient where
  url : String
deriving DecidableEq, Repr

/-- The fields of a constructed `Consumer[T]` that `NewConsumer` fills
in (the embedded `StopWaiter` is lifecycle plumbing, external). -/
structure ConsumerState where
  id : String
  client : RedisClient
  cfg : ConsumerConfig
deriving DecidableEq, Repr

/-- Model of `NewConsumer` (consumer.go lines 67-81): an empty
`RedisURL` is a construction error; otherwise the client factory
(`redisutil.RedisClientFromURL`, external, passed as the parameter
`clientFromURL`) is consulted and its error propagated; on success a
consumer with a fresh id (parameter `newId`, `uuid.NewString()` in the
source) is returned. Go returns `(nil, err)` or `(consumer, nil)`,
i.e. exactly one of the two, modelled by `Except`. -/
def NewConsumer (cfg : ConsumerConfig) (newId : String)
    (clientFromURL : String → Except GoErr RedisClient) : Except GoErr ConsumerState :=
  if cfg.RedisURL = "" then Except.error (GoErr.base "redis url cannot be empty")
  else
    match clientFromURL cfg.RedisURL with
    | Except.error e => Except.error e
    | Except.ok c => Except.ok { id := newId, client := c, cfg := cfg }

/-- C1: in `SetResult`, the acknowledgment (XACK) of a delivery
identifier is never issued before the result for that identifier has
been durably written: whenever the trace of a `SetResult` call contains
the XACK command, the SETNX round trip reported no error, the result key
was free beforehand, the result is stored afterwards, and the trace is
exactly the SETNX command followed by the XACK command (so the
acknowledgment occurs only on, and after, the successful create-only
write). -/
theorem setResult_ack_only_after_write (cfg : ConsumerConfig) (st : Store)
    (setnxErr xackErr : Option GoErr) (messageID result : String)
    (h : RedisCmd.xack cfg.RedisStream cfg.RedisGroup messageID ∈
      (SetResult cfg st setnxErr xackErr messageID result).trace) :
    setnxErr = none ∧ st.lookup messageID = none ∧
    (SetResult cfg st setnxErr xackErr messageID result).store.lookup messageID = some result ∧
    (SetResult cfg st setnxErr xackErr messageID result).trace =
      [RedisCmd.setnx messageID result cfg.ResponseEntryTimeout,
       RedisCmd.xack cfg.RedisStream cfg.RedisGroup messageID] := by
  cases setnxErr with
  | some e => simp [SetResult, setNX] at h
  | none =>
    cases hl : st.lookup messageID with
    | some v => simp [SetResult, setNX, hl] at h
    | none =>
      refine ⟨rfl, by simp [hl], ?_, ?_⟩ <;>
        cases xackErr <;> simp [SetResult, setNX, hl, List.lookup]

/-- C1 witness: a concrete run in which the acknowledgment was issued,
and the stored result is then found under the delivery identifier. -/
theorem setResult_ack_only_after_write_witness :
    (RedisCmd.xack "s" "g" "m1" ∈
      (SetResult ⟨60, 40, "redis://h", "s", "g"⟩ [] none none "m1" "r1").trace) ∧
    (SetResult ⟨60, 40, "redis://h", "s", "g"⟩ [] none none "m1" "r1").store.lookup "m1" =
      some "r1" :=
  ⟨by decide,
   (setResult_ack_only_after_write ⟨60, 40, "redis://h", "s", "g"⟩ [] none none "m1" "r1"
      (by decide)).2.2.1⟩

/-- C2: for a delivery identifier whose result key is free, the first
`SetResult` call (with a healthy store) succeeds and stores the result;
the second call on the resulting key space returns a non-nil error and
issues no acknowledgment (its trace is just the SETNX attempt); and in
general any call where the store reports a SETNX error or the key is
already present returns a non-nil error and issues no acknowledgment. -/
theorem setResult_succeeds_at_most_once (cfg : ConsumerConfig) (st st2 : Store)
    (se2 xe2 se3 xe3 : Option GoErr) (messageID res1 res2 res3 : String)
    (h : st.lookup messageID = none) :
    ((SetResult cfg st none none messageID res1).ret = none ∧
     (SetResult cfg st none none messageID res1).store.lookup messageID = some res1) ∧
    ((SetResult cfg (SetResult cfg st none none messageID res1).store se2 xe2
        messageID res2).ret.isSome ∧
     (SetResult cfg (SetResult cfg st none none messageID res1).store se2 xe2
        messageID res2).trace =
       [RedisCmd.setnx messageID res2 cfg.ResponseEntryTimeout]) ∧
    (se3.isSome ∨ (st2.lookup messageID).isSome →
      (SetResult cfg st2 se3 xe3 messageID res3).ret.isSome ∧
      (SetResult cfg st2 se3 xe3 messageID res3).trace =
        [RedisCmd.setnx messageID res3 cfg.ResponseEntryTimeout]) := by
  refine ⟨⟨?_, ?_⟩, ⟨?_, ?_⟩, ?_⟩
  · simp [SetResult, setNX, h]
  · simp [SetResult, setNX, h, List.lookup]
  · cases se2 <;> simp [SetResult, setNX, h, List.lookup]
  · cases se2 <;> simp [SetResult, setNX, h, List.lookup]
  · intro h3
    cases se3 with
    | some e => simp [SetResult, setNX]
    | none =>
      cases hl : st2.lookup messageID with
      | none => simp [hl] at h3
      | some v => simp [SetResult, setNX, hl]

/-- C2 witness: a concrete double call: the first call succeeds, the
second returns an error and its trace holds no acknowledgment. -/
theorem setResult_succeeds_at_most_once_witness :
    (List.lookup "m1" ([] : Store) = none) ∧
    (SetResult ⟨60, 40, "redis://h", "s", "g"⟩ [] none none "m1" "r1").ret = none ∧
    (SetResult ⟨60, 40, "redis://h", "s", "g"⟩
        (SetResult ⟨60, 40, "redis://h", "s", "g"⟩ [] none none "m1" "r1").store
        none none "m1" "r2").ret.isSome ∧
    (SetResult ⟨60, 40, "redis://h", "s", "g"⟩
        (SetResult ⟨60, 40, "redis://h", "s", "g"⟩ [] none none "m1" "r1").store
        none none "m1" "r2").trace = [RedisCmd.setnx "m1" "r2" 60] :=
  ⟨by decide,
   (setResult_succeeds_at_most_once ⟨60, 40, "redis://h", "s", "g"⟩ [] []
      none none none none "m1" "r1" "r2" "r3" (by decide)).1.1,
   (setResult_succeeds_at_most_once ⟨60, 40, "redis://h", "s", "g"⟩ [] []
      none none none none "m1" "r1" "r2" "r3" (by decide)).2.1.1,
   (setResult_succeeds_at_most_once ⟨60, 40, "redis://h", "s", "g"⟩ [] []
      none none none none "m1" "r1" "r2" "r3" (by decide)).2.1.2⟩

/-- C6: if the create-only write succeeds but the acknowledgment fails,
`SetResult` returns a non-nil error (wrapping the XACK failure) while
the stored result is left in place: the key space afterwards is exactly
the old one with the new result entry added, so nothing is deleted or
rolled back on the error path. -/
theorem setResult_ack_failure_keeps_result (cfg : ConsumerConfig) (st : Store)
    (e : GoErr) (messageID result : String) (h : st.lookup messageID = none) :
    (SetResult cfg st none (some e) messageID result).ret =
      some (GoErr.wrap ("acking message: " ++ messageID) e) ∧
    (SetResult cfg st none (some e) messageID result).store = (messageID, result) :: st ∧
    (SetResult cfg st none (some e) messageID result).store.lookup messageID = some result := by
  refine ⟨?_, ?_, ?_⟩ <;> simp [SetResult, setNX, h, List.lookup]

/-- C6 witness: a concrete run with a failing acknowledgment: the call
errors, yet the result entry is present afterwards. -/
theorem setResult_ack_failure_keeps_result_witness :
    (List.lookup "m1" ([] : Store) = none) ∧
    (SetResult ⟨60, 40, "redis://h", "s", "g"⟩ [] none (some (GoErr.base "boom"))
        "m1" "r1").ret = some (GoErr.wrap "acking message: m1" (GoErr.base "boom")) ∧
    (SetResult ⟨60, 40, "redis://h", "s", "g"⟩ [] none (some (GoErr.base "boom"))
        "m1" "r1").store.lookup "m1" = some "r1" :=
  ⟨by decide,
   by
     have h := setResult_ack_failure_keeps_result ⟨60, 40, "redis://h", "s", "g"⟩ []
       (GoErr.base "boom") "m1" "r1" (by decide)
     simpa using h.1,
   (setResult_ack_failure_keeps_result ⟨60, 40, "redis://h", "s", "g"⟩ []
      (GoErr.base "boom") "m1" "r1" (by decide)).2.2⟩

/-- Helper: every `Consume` call issues exactly the one XREADGROUP
command, whatever the store replies — in particular no XACK. -/
theorem Consume_trace_eq (T : Type) (um : String → T × Option GoErr)
    (cfg : ConsumerConfig) (id mk : String) (ro : ReadOutcome) :
    (Consume T um cfg id mk ro).trace =
      [RedisCmd.xreadgroup cfg.RedisGroup id cfg.RedisStream true 1 1000000] := by
  cases ro with
  | redisNil => rfl
  | err e => rfl
  | ok res =>
    match res with
    | [] => rfl
    | s :: s2 :: r2 => rfl
    | [s] =>
      obtain ⟨sname, msgs⟩ := s
      match msgs with
      | [] => rfl
      | m :: m2 :: m2s => rfl
      | [m] =>
        cases hv : m.Values.lookup mk with
        | none => simp [Consume, hv]
        | some rv =>
          cases rv with
          | other => simp [Consume, hv]
          | str data =>
            cases hu : um data with
            | mk v oe => cases oe <;> simp [Consume, hv, hu]

/-- C3: `Consume` returns exactly one of three outcomes: absent message
with nil error exactly when the store replied with the no-data sentinel;
otherwise either a present message with nil error, or an absent message
with a non-nil error — never both a message and an error. -/
theorem Consume_exactly_one_outcome (T : Type) (um : String → T × Option GoErr)
    (cfg : ConsumerConfig) (id mk : String) (ro : ReadOutcome) :
    (¬((Consume T um cfg id mk ro).msg.isSome ∧ (Consume T um cfg id mk ro).err.isSome)) ∧
    (((Consume T um cfg id mk ro).msg = none ∧ (Consume T um cfg id mk ro).err = none) ↔
      ro = ReadOutcome.redisNil) ∧
    ((Consume T um cfg id mk ro).msg = none ∨ (Consume T um cfg id mk ro).err = none) := by
  cases ro with
  | redisNil => simp [Consume]
  | err e => simp [Consume]
  | ok res =>
    match res with
    | [] => simp [Consume]
    | s :: s2 :: r2 => simp [Consume]
    | [s] =>
      obtain ⟨sname, msgs⟩ := s
      match msgs with
      | [] => simp [Consume]
      | m :: m2 :: m2s => simp [Consume]
      | [m] =>
        cases hv : m.Values.lookup mk with
        | none => simp [Consume, hv]
        | some rv =>
          cases rv with
          | other => simp [Consume, hv]
          | str data =>
            cases hu : um data with
            | mk v oe => cases oe <;> simp [Consume, hv, hu]

/-- C3 witness: the theorem applied at a concrete reply; on the no-data
sentinel the call returns absent message and nil error. -/
theorem Consume_exactly_one_outcome_witness :
    (Consume Unit (fun _ => ((), none)) ⟨60, 40, "redis://h", "s", "g"⟩ "c1" "k"
        ReadOutcome.redisNil).msg = none ∧
    (Consume Unit (fun _ => ((), none)) ⟨60, 40, "redis://h", "s", "g"⟩ "c1" "k"
        ReadOutcome.redisNil).err = none :=
  (Consume_exactly_one_outcome Unit (fun _ => ((), none)) ⟨60, 40, "redis://h", "s", "g"⟩
      "c1" "k" ReadOutcome.redisNil).2.1.mpr rfl

/-- C4: when the store replies successfully but the reply is not exactly
one stream holding exactly one entry, `Consume` returns no message and a
non-nil error. (The Go signature returns a single message pointer,
modelled by the single `Option (Message T)` field, so no call can ever
hand back more than one item.) -/
theorem Consume_rejects_bad_shape (T : Type) (um : String → T × Option GoErr)
    (cfg : ConsumerConfig) (id mk : String) (res : List XStream)
    (h : singleShape res = false) :
    (Consume T um cfg id mk (ReadOutcome.ok res)).msg = none ∧
    (Consume T um cfg id mk (ReadOutcome.ok res)).err.isSome := by
  match res with
  | [] => simp [Consume]
  | s :: s2 :: r2 => simp [Consume]
  | [s] =>
    obtain ⟨sname, msgs⟩ := s
    match msgs with
    | [] => simp [Consume]
    | m :: m2 :: m2s => simp [Consume]
    | [m] => simp [singleShape] at h

/-- C4 witness: a concrete reply of two streams is rejected with an
error and no message. -/
theorem Consume_rejects_bad_shape_witness :
    singleShape [⟨"s", []⟩, ⟨"s", []⟩] = false ∧
    (Consume Unit (fun _ => ((), none)) ⟨60, 40, "redis://h", "s", "g"⟩ "c1" "k"
        (ReadOutcome.ok [⟨"s", []⟩, ⟨"s", []⟩])).msg = none ∧
    (Consume Unit (fun _ => ((), none)) ⟨60, 40, "redis://h", "s", "g"⟩ "c1" "k"
        (ReadOutcome.ok [⟨"s", []⟩, ⟨"s", []⟩])).err.isSome :=
  ⟨by decide,
   (Consume_rejects_bad_shape Unit (fun _ => ((), none)) ⟨60, 40, "redis://h", "s", "g"⟩
      "c1" "k" [⟨"s", []⟩, ⟨"s", []⟩] (by decide)).1,
   (Consume_rejects_bad_shape Unit (fun _ => ((), none)) ⟨60, 40, "redis://h", "s", "g"⟩
      "c1" "k" [⟨"s", []⟩, ⟨"s", []⟩] (by decide)).2⟩

/-- C5: when the reply is well shaped and carries a string payload that
the codec fails to decode, `Consume` returns no message and a non-nil
error wrapping the decode failure; and no `Consume` call ever issues an
XACK command for any store reply, so the item stays un-acknowledged. -/
theorem Consume_decode_failure_no_ack (T : Type) (um : String → T × Option GoErr)
    (cfg : ConsumerConfig) (id mk sname : String) (m : XMessage)
    (data : String) (v : T) (e : GoErr)
    (hval : m.Values.lookup mk = some (RValue.str data))
    (hum : um data = (v, some e)) :
    (Consume T um cfg id mk (ReadOutcome.ok [⟨sname, [m]⟩])).msg = none ∧
    (Consume T um cfg id mk (ReadOutcome.ok [⟨sname, [m]⟩])).err =
      some (GoErr.wrap "unmarshaling value" e) ∧
    (∀ (ro : ReadOutcome) (a b c : String),
      RedisCmd.xack a b c ∉ (Consume T um cfg id mk ro).trace) := by
  refine ⟨?_, ?_, ?_⟩
  · simp [Consume, hval, hum]
  · simp [Consume, hval, hum]
  · intro ro a b c
    rw [Consume_trace_eq]
    simp

/-- C5 witness: a concrete undecodable payload: the call errors with the
decode failure wrapped and returns no message. -/
theorem Consume_decode_failure_no_ack_witness :
    (List.lookup "k" [("k", RValue.str "payload")] = some (RValue.str "payload")) ∧
    ((fun (_ : String) => ((), some (GoErr.base "bad payload"))) "payload" =
      ((), some (GoErr.base "bad payload"))) ∧
    (Consume Unit (fun _ => ((), some (GoErr.base "bad payload")))
        ⟨60, 40, "redis://h", "s", "g"⟩ "c1" "k"
        (ReadOutcome.ok [⟨"s", [⟨"1-0", [("k", RValue.str "payload")]⟩]⟩])).msg = none ∧
    (Consume Unit (fun _ => ((), some (GoErr.base "bad payload")))
        ⟨60, 40, "redis://h", "s", "g"⟩ "c1" "k"
        (ReadOutcome.ok [⟨"s", [⟨"1-0", [("k", RValue.str "payload")]⟩]⟩])).err =
      some (GoErr.wrap "unmarshaling value" (GoErr.base "bad payload")) :=
  ⟨by decide, rfl,
   (Consume_decode_failure_no_ack Unit (fun _ => ((), some (GoErr.base "bad payload")))
      ⟨60, 40, "redis://h", "s", "g"⟩ "c1" "k" "s" ⟨"1-0", [("k", RValue.str "payload")]⟩
      "payload" () (GoErr.base "bad payload") (by decide) rfl).1,
   (Consume_decode_failure_no_ack Unit (fun _ => ((), some (GoErr.base "bad payload")))
      ⟨60, 40, "redis://h", "s", "g"⟩ "c1" "k" "s" ⟨"1-0", [("k", RValue.str "payload")]⟩
      "payload" () (GoErr.base "bad payload") (by decide) rfl).2.1⟩

/-- C10: when the reply is well shaped but the entry value under the
message key is absent or not a string, `Consume` returns no message and
a non-nil error — the type assertion is guarded by the ok-check, and the
error built on this branch wraps a nil underlying error (`wrapNil`,
because the surviving `err` variable is nil there). -/
theorem Consume_guarded_cast (T : Type) (um : String → T × Option GoErr)
    (cfg : ConsumerConfig) (id mk sname : String) (m : XMessage)
    (hv : m.Values.lookup mk = none ∨ m.Values.lookup mk = some RValue.other) :
    (Consume T um cfg id mk (ReadOutcome.ok [⟨sname, [m]⟩])).msg = none ∧
    (Consume T um cfg id mk (ReadOutcome.ok [⟨sname, [m]⟩])).err =
      some (GoErr.wrapNil "casting request to string") := by
  cases hv with
  | inl h => exact ⟨by simp [Consume, h], by simp [Consume, h]⟩
  | inr h => exact ⟨by simp [Consume, h], by simp [Consume, h]⟩

/-- C10 witness: a concrete entry carrying a non-string value under the
message key: no message, and the error wraps a nil underlying error. -/
theorem Consume_guarded_cast_witness :
    (List.lookup "k" [("k", RValue.other)] = none ∨
      List.lookup "k" [("k", RValue.other)] = some RValue.other) ∧
    (Consume Unit (fun _ => ((), none)) ⟨60, 40, "redis://h", "s", "g"⟩ "c1" "k"
        (ReadOutcome.ok [⟨"s", [⟨"1-0", [("k", RValue.other)]⟩]⟩])).msg = none ∧
    (Consume Unit (fun _ => ((), none)) ⟨60, 40, "redis://h", "s", "g"⟩ "c1" "k"
        (ReadOutcome.ok [⟨"s", [⟨"1-0", [("k", RValue.other)]⟩]⟩])).err =
      some (GoErr.wrapNil "casting request to string") :=
  ⟨by decide,
   (Consume_guarded_cast Unit (fun _ => ((), none)) ⟨60, 40, "redis://h", "s", "g"⟩
      "c1" "k" "s" ⟨"1-0", [("k", RValue.other)]⟩ (by decide)).1,
   (Consume_guarded_cast Unit (fun _ => ((), none)) ⟨60, 40, "redis://h", "s", "g"⟩
      "c1" "k" "s" ⟨"1-0", [("k", RValue.other)]⟩ (by decide)).2⟩

/-- C7: each heartbeat tick issues a SET of the key produced by the pure
formatting function `id` to `"consumer:" ++ id ++ ":heartbeat"`, with
value the current epoch-milliseconds timestamp and expiry exactly twice
the keep-alive interval, and the delay handed back to the scheduler is
exactly the keep-alive interval divided by 10 (Go duration division). -/
theorem heartBeat_tick_spec (cfg : ConsumerConfig) (id : String) (nowMillis : Int)
    (writeErr ctxErr : Option GoErr) :
    heartBeatKey id = "consumer:" ++ id ++ ":heartbeat" ∧
    (startTick cfg id nowMillis writeErr ctxErr).1.cmd =
      RedisCmd.setKey ("consumer:" ++ id ++ ":heartbeat") nowMillis
        (2 * cfg.KeepAliveTimeout) ∧
    (startTick cfg id nowMillis writeErr ctxErr).2 = durDiv cfg.KeepAliveTimeout 10 :=
  ⟨rfl, rfl, rfl⟩

/-- C8: the heartbeat never fails its caller: `heartBeat` is a total
function with no error in its result (modelling the Go `func` with no
return value and no panic on any branch); a failed write is logged at
elevated (`log.Error`) severity exactly when the cancellation context is
in error, at `log.Info` severity exactly when it is not, nothing is
logged on success, and the tick delay handed back afterwards is the same
whatever the write and context outcomes were. -/
theorem heartBeat_failure_nonfatal (cfg : ConsumerConfig) (id : String)
    (nowMillis nowMillis2 : Int) (we ce we2 ce2 : Option GoErr) :
    ((heartBeat cfg id nowMillis we ce).logged = some LogLevel.error ↔
      we.isSome ∧ ce.isSome) ∧
    ((heartBeat cfg id nowMillis we ce).logged = some LogLevel.info ↔
      we.isSome ∧ ce = none) ∧
    ((heartBeat cfg id nowMillis we ce).logged.isSome ↔ we.isSome) ∧
    (startTick cfg id nowMillis we ce).2 = (startTick cfg id nowMillis2 we2 ce2).2 := by
  cases we <;> cases ce <;> simp [heartBeat, startTick]

/-- C9: construction fails on an empty store address — `NewConsumer`
returns exactly the construction error and no consumer — and a consumer
is returned only when the address is non-empty and the client factory
succeeded, in which case the consumer holds that client, the fresh id
and the given configuration. -/
theorem newConsumer_requires_url (cfg : ConsumerConfig) (newId : String)
    (clientFromURL : String → Except GoErr RedisClient) :
    (cfg.RedisURL = "" →
      NewConsumer cfg newId clientFromURL =
        Except.error (GoErr.base "redis url cannot be empty")) ∧
    (∀ cs, NewConsumer cfg newId clientFromURL = Except.ok cs →
      cfg.RedisURL ≠ "" ∧ clientFromURL cfg.RedisURL = Except.ok cs.client ∧
      cs.id = newId ∧ cs.cfg = cfg) := by
  constructor
  · intro h
    simp [NewConsumer, h]
  · intro cs hok
    by_cases h : cfg.RedisURL = ""
    · simp [NewConsumer, h] at hok
    · refine ⟨h, ?_⟩
      cases hc : clientFromURL cfg.RedisURL with
      | error e => simp [NewConsumer, h, hc] at hok
      | ok c =>
        simp [NewConsumer, h, hc] at hok
        subst hok
        exact ⟨rfl, rfl, rfl⟩

/-- C9 witness: with an empty address the constructor errors; with a
non-empty address and a successful client factory it returns a consumer
holding that client. -/
theorem newConsumer_requires_url_witness :
    NewConsumer ⟨60, 40, "", "s", "g"⟩ "id0" (fun u => Except.ok ⟨u⟩) =
      Except.error (GoErr.base "redis url cannot be empty") ∧
    (ConsumerConfig.mk 60 40 "redis://h" "s" "g").RedisURL ≠ "" ∧
    (fun (u : String) => Except.ok (ε := GoErr) (RedisClient.mk u)) "redis://h" =
      Except.ok (RedisClient.mk "redis://h") :=
  ⟨(newConsumer_requires_url ⟨60, 40, "", "s", "g"⟩ "id0" (fun u => Except.ok ⟨u⟩)).1 rfl,
   ((newConsumer_requires_url ⟨60, 40, "redis://h", "s", "g"⟩ "id0"
      (fun u => Except.ok ⟨u⟩)).2 ⟨"id0", ⟨"redis://h"⟩, ⟨60, 40, "redis://h", "s", "g"⟩⟩
      rfl).1,
   ((newConsumer_requires_url ⟨60, 40, "redis://h", "s", "g"⟩ "id0"
      (fun u => Except.ok ⟨u⟩)).2 ⟨"id0", ⟨"redis://h"⟩, ⟨60, 40, "redis://h", "s", "g"⟩⟩
      rfl).2.1⟩

end Pubsub
